import Mathlib

/-!
Verification of the AgriDetect core logic: the chat intent resolver
(`chatbot.py`), the disease catalog and prediction-to-catalog reconciler
(`main.py`), and the detector knowledge tables (`disease_detector.py`),
shallowly embedded as executable Lean definitions.
-/

namespace AgriDetect

/-! ### Python string primitives

The Python code works with `str.lower()`, `str.strip()`, `in` (substring
test), `str.split()` (whitespace words), `str.join` and `str.replace`.
They are embedded here as structurally recursive functions over `List Char`
so that every proof can evaluate them inside the kernel. -/

/-- `str.lower()` on one character.  Covers ASCII letters and the Latin-1
uppercase range (À–Þ, except ×), which is the whole repertoire appearing in
this repository's data and a faithful restriction of Python's mapping. -/
def pyLower (c : Char) : Char :=
  if 'A' ≤ c ∧ c ≤ 'Z' then Char.ofNat (c.toNat + 32)
  else if ('À' ≤ c ∧ c ≤ 'Þ') ∧ c ≠ '×' then Char.ofNat (c.toNat + 32)
  else c

/-- `str.lower()`. -/
def pyLowerStr (s : String) : String :=
  String.mk (s.data.map pyLower)

/-- `str.strip()` : drop whitespace from both ends. -/
def pyStrip (s : String) : String :=
  String.mk (((s.data.dropWhile Char.isWhitespace).reverse.dropWhile
    Char.isWhitespace).reverse)

/-- Contiguous-sublist test on character lists (the Python `in` operator on
strings): `needle` occurs somewhere inside the second list. -/
def subListChar (needle : List Char) : List Char → Bool
  | [] => needle.isEmpty
  | c :: rest => needle.isPrefixOf (c :: rest) || subListChar needle rest

/-- Python `needle in hay` on strings. -/
def strIn (needle hay : String) : Bool :=
  subListChar needle.data hay.data

/-- Worker for `pyWords`: accumulates the current word (reversed) while
scanning. -/
def pyWordsAux : List Char → List Char → List (List Char)
  | [], acc => if acc.isEmpty then [] else [acc.reverse]
  | c :: rest, acc =>
    if c.isWhitespace then
      if acc.isEmpty then pyWordsAux rest []
      else acc.reverse :: pyWordsAux rest []
    else pyWordsAux rest (c :: acc)

/-- Python `str.split()` with no separator: whitespace-delimited words, no
empty words. -/
def pyWords (s : String) : List String :=
  (pyWordsAux s.data []).map String.mk

/-- Python `sep.join(parts)`. -/
def pyJoin (sep : String) : List String → String
  | [] => ""
  | [x] => x
  | x :: y :: rest => x ++ sep ++ pyJoin sep (y :: rest)

/-- Fuel-driven worker for `pyReplace`; the fuel starts at the length of the
scanned list, and every step consumes at least one character. -/
def pyReplaceAux (pat rep : List Char) : Nat → List Char → List Char
  | 0, l => l
  | _ + 1, [] => []
  | fuel + 1, c :: rest =>
    if pat ≠ [] ∧ pat.isPrefixOf (c :: rest) then
      rep ++ pyReplaceAux pat rep fuel (List.drop pat.length (c :: rest))
    else c :: pyReplaceAux pat rep fuel rest

/-- Python `s.replace(pat, rep)` (left-to-right, non-overlapping; all the
patterns used in this repository are non-empty). -/
def pyReplace (s pat rep : String) : String :=
  String.mk (pyReplaceAux pat.data rep.data s.data.length s.data)

/-! ### Chatbot knowledge base (`chatbot.py`, `DISEASE_INFO`)

A catalog entry as stored in the module-level `DISEASE_INFO` dict.  Three
healthy entries carry no `symptoms` key; since the code only ever reads it
through `data.get("symptoms", "")`, a missing value is embedded as `""`. -/

structure CbEntry where
  name : String
  crop : String
  severity : String
  treatments : List String
  prevention : List String
  symptoms : String := ""
  deriving DecidableEq, Repr

/-- `DISEASE_INFO` from `chatbot.py`, in dict insertion order (Python dicts
iterate in insertion order, which the matching code depends on). -/
def DISEASE_INFO : List (String × CbEntry) := [
  ("pepper_bacterial_spot",
    { name := "Tache bactérienne du poivron"
      crop := "Poivron / Piment"
      severity := "Modérée"
      treatments := [
        "Pulvériser un produit à base de cuivre (respecter l\x27étiquette)",
        "Éviter l\x27arrosage par aspersion",
        "Supprimer les feuilles très atteintes"]
      prevention := [
        "Semences/plants sains",
        "Désinfection des outils",
        "Éviter de manipuler les plantes mouillées"]
      symptoms := "Petites taches brun-noir, parfois entourées de jaune, sur feuilles et parfois fruits." }),
  ("pepper_healthy",
    { name := "Poivron sain"
      crop := "Poivron"
      severity := "Aucune"
      treatments := []
      prevention := ["Surveillance régulière", "Arrosage au pied"] }),
  ("potato_early_blight",
    { name := "Brûlure précoce (pomme de terre)"
      crop := "Pomme de terre"
      severity := "Modérée"
      treatments := [
        "Fongicide de contact (cuivre ou chlorothalonil) si disponible",
        "Retirer les feuilles très atteintes"]
      prevention := [
        "Rotation 2 à 3 ans",
        "Éviter excès d\x27azote",
        "Espacer les plants pour l\x27aération"]
      symptoms := "Taches brunes avec cercles concentriques sur les feuilles âgées." }),
  ("potato_late_blight",
    { name := "Mildiou de la pomme de terre"
      crop := "Pomme de terre"
      severity := "Élevée"
      treatments := [
        "Fongicide systémique homologué",
        "Éliminer/enterrer les parties fortement atteintes"]
      prevention := [
        "Arroser au pied",
        "Éviter l\x27humidité prolongée sur le feuillage",
        "Utiliser des variétés tolérantes quand c\x27est possible"]
      symptoms := "Taches brun-gris s\x27élargissant vite, parfois duvet blanc au revers." }),
  ("potato_healthy",
    { name := "Pomme de terre saine"
      crop := "Pomme de terre"
      severity := "Aucune"
      treatments := []
      prevention := ["Surveillance", "Arrosage régulier sans détremper le sol"] }),
  ("tomato_bacterial_spot",
    { name := "Tache bactérienne de la tomate"
      crop := "Tomate"
      severity := "Modérée"
      treatments := [
        "Traitement cuivre (hydroxyde ou oxichlorure)",
        "Supprimer feuilles atteintes pour limiter la source d\x27inoculum"]
      prevention := [
        "Semences certifiées",
        "Désinfecter les outils",
        "Éviter les éclaboussures d\x27eau"]
      symptoms := "Petites taches sombres, parfois huileuses, sur feuilles et fruits." }),
  ("tomato_early_blight",
    { name := "Brûlure précoce de la tomate"
      crop := "Tomate"
      severity := "Modérée"
      treatments := [
        "Traitement cuivre",
        "Améliorer l\x27aération du feuillage"]
      prevention := [
        "Rotation",
        "Ne pas mouiller le feuillage le soir",
        "Ramasser les débris au sol"]
      symptoms := "Taches brunes avec anneaux concentriques sur feuilles âgées." }),
  ("tomato_late_blight",
    { name := "Tomate — mildiou"
      crop := "Tomate"
      severity := "Élevée"
      treatments := [
        "Fongicide systémique (suivre l\x27étiquette)",
        "Couper les parties très atteintes"]
      prevention := [
        "Arroser au pied",
        "Espacer les plants",
        "Éviter l\x27humidité prolongée"]
      symptoms := "Taches brun-gris qui s\x27élargissent vite, parfois duvet blanc au revers." }),
  ("tomato_leaf_mold",
    { name := "Moisissure des feuilles de la tomate"
      crop := "Tomate"
      severity := "Modérée"
      treatments := [
        "Pulvérisation soufre ou cuivre",
        "Éclaircir le feuillage"]
      prevention := [
        "Bonne ventilation",
        "Éviter condensation dans les abris"]
      symptoms := "Tache jaune en dessus, feutrage olive en dessous." }),
  ("tomato_septoria_leaf_spot",
    { name := "Tache foliaire de Septoria (tomate)"
      crop := "Tomate"
      severity := "Modérée"
      treatments := [
        "Traitement cuivre",
        "Enlever les feuilles basses atteintes"]
      prevention := [
        "Rotation",
        "Arrosage au pied"]
      symptoms := "Petites taches rondes à centre clair et bord foncé." }),
  ("tomato_spider_mites",
    { name := "Acariens / araignées rouges (tomate)"
      crop := "Tomate"
      severity := "Modérée"
      treatments := [
        "Pulvérisation de savon noir dilué",
        "Ou huile de Neem (en soirée)"]
      prevention := [
        "Éviter le stress hydrique",
        "Surveiller le revers des feuilles"]
      symptoms := "Feuilles décolorées, fines toiles, petits points jaunes." }),
  ("tomato_target_spot",
    { name := "Tache cible (tomate)"
      crop := "Tomate"
      severity := "Modérée"
      treatments := [
        "Traitement cuivre",
        "Éliminer les feuilles atteintes"]
      prevention := [
        "Aérer",
        "Éviter excès d\x27azote"]
      symptoms := "Taches rondes avec cercles concentriques." }),
  ("tomato_mosaic_virus",
    { name := "Virus de la mosaïque (tomate)"
      crop := "Tomate"
      severity := "Élevée"
      treatments := [
        "Détruire les plants très atteints",
        "Limiter les manipulations"]
      prevention := [
        "Semences saines",
        "Désinfection des outils",
        "Contrôler les vecteurs (pucerons, aleurodes)"]
      symptoms := "Feuilles marbrées vert clair/vert foncé, déformation éventuelle." }),
  ("tomato_yellow_leaf_curl_virus",
    { name := "Virus de l\x27enroulement jaune (tomate)"
      crop := "Tomate"
      severity := "Élevée"
      treatments := [
        "Éliminer les plants atteints",
        "Lutter contre les aleurodes (mouches blanches)"]
      prevention := [
        "Filets anti-insectes",
        "Paillage",
        "Variétés tolérantes"]
      symptoms := "Feuilles jaunes enroulées vers le haut, pousse ralentie." }),
  ("tomato_healthy",
    { name := "Tomate saine"
      crop := "Tomate"
      severity := "Aucune"
      treatments := []
      prevention := ["Surveillance régulière", "Bonne irrigation"] })]

/-! ### Chat intent resolver (`MultilingualAgriChatbot`) -/

/-- `_build_index`: one `(lowered text, key)` pair per non-empty name and per
non-empty crop of every catalog entry, in catalog order. -/
def buildIndex : List (String × CbEntry) → List (String × String)
  | [] => []
  | (key, info) :: rest =>
    (if info.name ≠ "" then [(pyLowerStr info.name, key)] else []) ++
    (if info.crop ≠ "" then [(pyLowerStr info.crop, key)] else []) ++
    buildIndex rest

/-- `self._TEXT_INDEX`, built once from `DISEASE_INFO`. -/
def TEXT_INDEX : List (String × String) := buildIndex DISEASE_INFO

/-- `_normalize`: `text.lower().strip()`. -/
def normalizeMsg (text : String) : String := pyStrip (pyLowerStr text)

/-- The local `disease_fr` dict of `_find_disease_key` (insertion order). -/
def disease_fr : List (String × List String) := [
  ("tache bactérienne", ["pepper_bacterial_spot", "tomato_bacterial_spot"]),
  ("mildiou", ["potato_late_blight", "tomato_late_blight"]),
  ("brûlure précoce", ["potato_early_blight", "tomato_early_blight"]),
  ("moisissure", ["tomato_leaf_mold"]),
  ("septoriose", ["tomato_septoria_leaf_spot"]),
  ("acariens", ["tomato_spider_mites"]),
  ("tache cible", ["tomato_target_spot"]),
  ("virus mosaïque", ["tomato_mosaic_virus"]),
  ("enroulement jaune", ["tomato_yellow_leaf_curl_virus"])]

/-- The local `crop_fr` dict of `_find_disease_key` (insertion order). -/
def crop_fr : List (String × List String) := [
  ("tomate", ["tomato_"]),
  ("pomme de terre", ["potato_"]),
  ("poivron", ["pepper_"]),
  ("piment", ["pepper_"])]

/-- `dk.replace("_", "")`. -/
def dropUnderscores (s : String) : String :=
  String.mk (s.data.filter (fun c => !(c = '_')))

/-- Attempt 1 of `_find_disease_key`: the nested crop × disease loops with
early return.  Note the source tests `dk.replace("_", "") in real_key`, i.e.
the candidate disease token has its underscores removed before the substring
test against the (underscored) catalog keys. -/
def findAttempt1 (msgNorm : String) : Option String :=
  crop_fr.findSome? fun cp =>
    if strIn cp.1 msgNorm then
      disease_fr.findSome? fun dp =>
        if strIn dp.1 msgNorm then
          cp.2.findSome? fun ck =>
            dp.2.findSome? fun dk =>
              (DISEASE_INFO.find? fun entry =>
                strIn ck entry.1 && strIn (dropUnderscores dk) entry.1).map
                Prod.fst
        else none
    else none

/-- Attempt 2 of `_find_disease_key`: token-overlap match over the text
index; the first entry with at least `min(2, len(parts))` of its whitespace
tokens occurring in the message wins. -/
def findAttempt2 (msgNorm : String) : Option String :=
  TEXT_INDEX.findSome? fun tk =>
    if min 2 (pyWords tk.1).length ≤
        (pyWords tk.1).countP (fun p => strIn p msgNorm) then
      some tk.2
    else none

/-- Attempt 3 of `_find_disease_key`: full-text substring match over the
index. -/
def findAttempt3 (msgNorm : String) : Option String :=
  TEXT_INDEX.findSome? fun tk =>
    if strIn tk.1 msgNorm then some tk.2 else none

/-- `_find_disease_key`: the three attempts in order, first success wins. -/
def findDiseaseKey (msgNorm : String) : Option String :=
  match findAttempt1 msgNorm with
  | some k => some k
  | none =>
    match findAttempt2 msgNorm with
    | some k => some k
    | none => findAttempt3 msgNorm

/-- `any(word in msg_norm for word in words)`. -/
def anyKw (words : List String) (msgNorm : String) : Bool :=
  words.any fun w => strIn w msgNorm

/-- `_general_reply`: the generic-topic keyword cascade. -/
def generalReply (msgNorm : String) : String :=
  if anyKw ["maladie fongique", "fongique", "champignon", "champignons"] msgNorm then
    "Pour prévenir les maladies fongiques 🌿 :\n1. Arroser au pied (pas sur les feuilles)\n2. Espacer les plants pour que ça sèche vite\n3. Pailler le sol pour éviter les éclaboussures\n4. Enlever les feuilles touchées et les sortir de la parcelle\n5. Faire une rotation des cultures\n6. En saison humide : surveiller souvent pour traiter tôt (cuivre/soufre si autorisé)."
  else if anyKw ["traitement biologique", "traitements biologiques", "bio"] msgNorm then
    "Traitements biologiques possibles 🌱 :\n- Savon noir dilué (insectes, acariens)\n- Huile de Neem (le soir, éviter fleurs ouvertes)\n- Décoction d\x27ail ou de neem en prévention\n- Cuivre/bouillie bordelaise (autorité locales)\n- Toujours traiter le matin ou le soir."
  else if anyKw ["arrosage", "arroser"] msgNorm then
    "Bonnes pratiques d\x27arrosage 💧:\n1. Arroser au pied, pas sur les feuilles\n2. Le matin (ou le soir s\x27il fait très chaud)\n3. Garder le sol humide mais non détrempé\n4. Pailler pour réduire l\x27évaporation ✅"
  else if anyKw ["prevention", "prévention", "eviter maladie", "éviter"] msgNorm then
    "Prévention générale des maladies 🛡️ :\n- Utiliser des semences/plants sains\n- Espacer les plants pour l\x27aération\n- Arroser au pied\n- Retirer les feuilles malades\n- Pratiquer la rotation des cultures"
  else if strIn "tomate" msgNorm && strIn "maladie" msgNorm then
    "Maladies courantes de la tomate 🍅 :\n- Mildiou\n- Tache bactérienne\n- Brûlure précoce\n- Septoriose\n- Virus de la mosaïque\n- Virus de l\x27enroulement jaune\nDemande par ex. « traitement mildiou tomate » 👍"
  else
    "Je n\x27ai pas trouvé exactement la maladie dans ton message 😅.\nTu peux écrire :\n- « traitement mildiou tomate »\n- « prévention tache bactérienne poivron »\n- « symptômes brûlure précoce pomme de terre »\n- « bonnes pratiques d\x27arrosage »"

/-- The entry data `_format_disease_answer` reads through
`DISEASE_INFO.get(key, {})` followed by per-field `.get` defaults. -/
def entryForKey (key : String) : CbEntry :=
  match DISEASE_INFO.lookup key with
  | some e => e
  | none =>
    { name := key, crop := "", severity := "Inconnue", treatments := []
      prevention := [], symptoms := "" }

/-- `_format_disease_answer`: keyword-driven template selection for a
resolved disease key. -/
def formatDiseaseAnswer (key msgNorm : String) : String :=
  let e := entryForKey key
  if anyKw ["traitement", "soigner", "traiter"] msgNorm then
    if e.treatments.isEmpty then
      "Pour **" ++ e.name ++
        "**, pas de traitement spécifique enregistré.\nSupprime les parties atteintes et améliore l\x27aération."
    else
      pyJoin "\n" (("Traitement pour **" ++ e.name ++ "** :") ::
        e.treatments.map (fun t => "  • " ++ t) ++
        ["\nSévérité : **" ++ e.severity ++ "**"])
  else if anyKw ["prevention", "prévention", "eviter", "éviter"] msgNorm then
    if e.prevention.isEmpty then
      "Prévention générale pour **" ++ e.name ++
        "** :\nRotation, arrosage au pied, enlever les feuilles malades."
    else
      pyJoin "\n" (("Prévention pour **" ++ e.name ++ "** :") ::
        e.prevention.map (fun p => "  • " ++ p))
  else if anyKw ["symptome", "symptômes", "reconnaitre", "reconnaître"] msgNorm then
    if e.symptoms = "" then
      "Symptômes de **" ++ e.name ++
        "** : taches sur feuilles et affaiblissement de la plante."
    else
      "Symptômes de **" ++ e.name ++ "** 🔍 :\n" ++ e.symptoms
  else
    pyJoin "\n" (("📋 Maladie : **" ++ e.name ++ "**") ::
      ("Sévérité : " ++ e.severity) ::
      ((if e.symptoms ≠ "" then ["Symptômes : " ++ e.symptoms] else []) ++
       (if ¬ e.treatments.isEmpty then
          ["Traitements : " ++ pyJoin "; " (e.treatments.take 2)] else []) ++
       (if ¬ e.prevention.isEmpty then
          ["Prévention : " ++ pyJoin "; " (e.prevention.take 2)] else [])))

/-! ### `generate_response` -/

/-- A Python value stored in the `context` dict (`map<string, any>`): the
code itself only inserts strings, while the caller-supplied extra context is
arbitrary and opaque. -/
inductive CtxVal where
  | str : String → CtxVal
  | num : Int → CtxVal
  | boolean : Bool → CtxVal
  deriving DecidableEq, Repr

/-- The value stored under an existing key after merging in `extra`: the
override when `extra` has the key, the original value otherwise. -/
def overrideVal {α : Type} (extra : List (String × α)) (key : String)
    (w : α) : α :=
  match extra.lookup key with
  | some v => v
  | none => w

/-- The Python dict literal `{**base-entries, **extra}`: entries of `base`
with values overridden by `extra` where keys collide, followed by the
entries of `extra` whose keys are new. -/
def pyDictUpdate {α : Type} (base extra : List (String × α)) :
    List (String × α) :=
  base.map (fun p => (p.1, overrideVal extra p.1 p.2)) ++
  extra.filter (fun p => (base.lookup p.1).isNone)

/-- The dictionary returned by `generate_response` (minus the wall-clock
`timestamp` field, which is outside the pure text-producing path). -/
structure ChatResponse where
  response : String
  language : String
  intent : String
  suggestions : List String
  context : List (String × CtxVal)
  deriving DecidableEq, Repr

/-- `MultilingualAgriChatbot.generate_response`.  `defaultLang` is the
`default_lang` the bot was constructed with (`"fr"` everywhere in the
repository); `language = none` models Python `None`, and an empty string is
falsy so it also falls back to the default.  A `None` extra context is the
empty list. -/
def generateResponse (defaultLang message sessionId : String)
    (language : Option String) (extraContext : List (String × CtxVal)) :
    ChatResponse :=
  let msgNorm := normalizeMsg message
  let ti : String × String :=
    match findDiseaseKey msgNorm with
    | some key => (formatDiseaseAnswer key msgNorm, "disease_info")
    | none => (generalReply msgNorm, "general")
  { response := ti.1
    language :=
      match language with
      | some l => if l = "" then defaultLang else l
      | none => defaultLang
    intent := ti.2
    suggestions := [
      "traitement mildiou tomate",
      "prévention tache bactérienne poivron",
      "bonnes pratiques d\x27arrosage"]
    context := pyDictUpdate
      [("session_id", CtxVal.str sessionId),
       ("topic", CtxVal.str "plant_disease_assistant")] extraContext }

/-! ### Catalog and reconciler (`main.py`) -/

/-- One row of `DATASET_DISEASES`. -/
structure CatEntry where
  id : String
  plant_en : String
  plant_fr : String
  disease_en : String
  disease_fr : String
  severity : String
  season : String
  deriving DecidableEq, Repr

/-- `DATASET_DISEASES` from `main.py`, in source order.  (It has no
`tomato_late_blight` row.) -/
def DATASET_DISEASES : List CatEntry := [
  { id := "pepper_bacterial_spot", plant_en := "Pepper (bell)"
    plant_fr := "Poivron", disease_en := "Bacterial spot"
    disease_fr := "Tache bactérienne", severity := "Modérée"
    season := "Toute saison" },
  { id := "pepper_healthy", plant_en := "Pepper (bell)"
    plant_fr := "Poivron", disease_en := "Healthy"
    disease_fr := "Sain", severity := "Aucune", season := "Toute saison" },
  { id := "potato_early_blight", plant_en := "Potato"
    plant_fr := "Pomme de terre", disease_en := "Early blight"
    disease_fr := "Brûlure précoce", severity := "Modérée"
    season := "Saison humide" },
  { id := "potato_late_blight", plant_en := "Potato"
    plant_fr := "Pomme de terre", disease_en := "Late blight"
    disease_fr := "Brûlure tardive", severity := "Élevée"
    season := "Saison humide" },
  { id := "potato_healthy", plant_en := "Potato"
    plant_fr := "Pomme de terre", disease_en := "Healthy"
    disease_fr := "Sain", severity := "Aucune", season := "Toute saison" },
  { id := "tomato_bacterial_spot", plant_en := "Tomato"
    plant_fr := "Tomate", disease_en := "Bacterial spot"
    disease_fr := "Tache bactérienne", severity := "Modérée"
    season := "Toute saison" },
  { id := "tomato_early_blight", plant_en := "Tomato"
    plant_fr := "Tomate", disease_en := "Early blight"
    disease_fr := "Brûlure précoce", severity := "Modérée"
    season := "Saison humide" },
  { id := "tomato_leaf_mold", plant_en := "Tomato"
    plant_fr := "Tomate", disease_en := "Leaf mold"
    disease_fr := "Moisissure des feuilles", severity := "Modérée"
    season := "Saison humide" },
  { id := "tomato_septoria_leaf_spot", plant_en := "Tomato"
    plant_fr := "Tomate", disease_en := "Septoria leaf spot"
    disease_fr := "Tache foliaire de Septoria", severity := "Modérée"
    season := "Saison humide" },
  { id := "tomato_spider_mites", plant_en := "Tomato"
    plant_fr := "Tomate", disease_en := "Spider mites"
    disease_fr := "Acariens", severity := "Modérée"
    season := "Saison sèche" },
  { id := "tomato_target_spot", plant_en := "Tomato"
    plant_fr := "Tomate", disease_en := "Target spot"
    disease_fr := "Tache cible", severity := "Modérée"
    season := "Toute saison" },
  { id := "tomato_mosaic_virus", plant_en := "Tomato"
    plant_fr := "Tomate", disease_en := "Tomato mosaic virus"
    disease_fr := "Virus de la mosaïque", severity := "Élevée"
    season := "Toute saison" },
  { id := "tomato_yellow_leaf_curl_virus", plant_en := "Tomato"
    plant_fr := "Tomate", disease_en := "Yellow leaf curl virus"
    disease_fr := "Virus de l\x27enroulement jaune", severity := "Élevée"
    season := "Toute saison" },
  { id := "tomato_healthy", plant_en := "Tomato"
    plant_fr := "Tomate", disease_en := "Healthy"
    disease_fr := "Sain", severity := "Aucune", season := "Toute saison" }]

/-- `map_prediction_to_catalog(disease_key, disease_name_raw)`: exact-id
fast path, then underscore/case-normalised substring matching of the raw
label against ids and English disease names. -/
def mapPredictionToCatalog (diseaseKey rawLabel : String) :
    Option CatEntry :=
  if diseaseKey = "" ∧ rawLabel = "" then none
  else
    match DATASET_DISEASES.find?
        (fun item => diseaseKey ≠ "" && item.id == diseaseKey) with
    | some item => some item
    | none =>
      if rawLabel ≠ "" then
        let key := pyLowerStr (pyStrip (pyReplace
          (pyReplace (pyReplace rawLabel "___" "_") "__" "_") " " "_"))
        DATASET_DISEASES.findSome? fun item =>
          if strIn key item.id || strIn item.id key then some item
          else
            let den := pyReplace (pyLowerStr item.disease_en) " " "_"
            if strIn key den || strIn den key then some item else none
      else none

/-- The `aliases` dict of `get_common_diseases` (insertion order). -/
def cropAliases : List (String × List String) := [
  ("tomate", ["tomate", "tomato"]),
  ("pomme de terre", ["pomme de terre", "potato"]),
  ("poivron", ["poivron", "pepper", "bell pepper", "pepper (bell)"])]

/-- The part of `get_common_diseases` below the `norm = crop_type.strip().lower()`
line: alias-group selection (first group containing `norm`, in dict order)
followed by the catalog filter on the group's plant names. -/
def filterByNormCrop (norm : String) : List CatEntry :=
  match cropAliases.findSome? (fun g =>
      if (g.2.map pyLowerStr).contains norm then some g.2 else none) with
  | none => []
  | some vals =>
    DATASET_DISEASES.filter fun d =>
      (vals.map pyLowerStr).contains (pyLowerStr d.plant_en) ||
      (vals.map pyLowerStr).contains (pyLowerStr d.plant_fr)

/-- The diseases sequence returned by `get_common_diseases(crop_type)`
(`crop_type = none` and the falsy empty string both return the whole
catalog). -/
def getCommonDiseases (cropType : Option String) : List CatEntry :=
  match cropType with
  | none => DATASET_DISEASES
  | some ct =>
    if ct = "" then DATASET_DISEASES
    else filterByNormCrop (pyLowerStr (pyStrip ct))

/-! ### Detector knowledge tables (`disease_detector.py`) -/

/-- One entry of the detector's `DISEASE_INFO` table (localized names in
fr/wo/pu; `treatments` holds treatment ids into `TREATMENTS_DB`). -/
structure DdEntry where
  fr : String
  wo : String
  pu : String
  severity : String
  crop : String
  prevention : List String
  treatments : List String
  deriving DecidableEq, Repr

/-- `DISEASE_INFO` from `disease_detector.py`, in source order. -/
def DD_DISEASE_INFO : List (String × DdEntry) := [
  ("pepper_healthy",
    { fr := "Piment sain", wo := "Pimó wér", pu := "Piment cellal"
      severity := "Aucune", crop := "Piment"
      prevention := ["Hygiène de la parcelle", "Surveillance régulière"]
      treatments := [] }),
  ("pepper_bacterial_spot",
    { fr := "Piment — tache bactérienne", wo := "Pimó — tàkk bakteriya"
      pu := "Piment tache bakteriya", severity := "Modérée", crop := "Piment"
      prevention := ["Semences saines", "Éviter l\x27aspersion", "Désinfecter les outils"]
      treatments := ["copper_spray", "crop_rotation"] }),
  ("potato_healthy",
    { fr := "Pomme de terre saine", wo := "Pomme de terre wér"
      pu := "Pomme de terre cellal", severity := "Aucune"
      crop := "Pomme de terre"
      prevention := ["Surveillance", "Éviter excès d\x27humidité"]
      treatments := [] }),
  ("potato_early_blight",
    { fr := "Pomme de terre — alternariose", wo := "Ñawu weñ (pomme de terre)"
      pu := "Early blight", severity := "Modérée", crop := "Pomme de terre"
      prevention := ["Rotation", "Éviter les blessures"]
      treatments := ["fungicide_copper", "neem_oil"] }),
  ("potato_late_blight",
    { fr := "Pomme de terre — mildiou", wo := "Mildiou", pu := "Late blight"
      severity := "Élevée", crop := "Pomme de terre"
      prevention := ["Arrosage au pied", "Retirer feuilles infectées"]
      treatments := ["fungicide_systemic"] }),
  ("tomato_healthy",
    { fr := "Tomate saine", wo := "Tomaat wér", pu := "Tomate cellal"
      severity := "Aucune", crop := "Tomate"
      prevention := ["Surveillance", "Éviter humidité excessive"]
      treatments := [] }),
  ("tomato_bacterial_spot",
    { fr := "Tomate — tache bactérienne", wo := "Tomaat — tàkk bakteriya"
      pu := "Tomate tache bakteriya", severity := "Modérée", crop := "Tomate"
      prevention := ["Semences certifiées", "Désinfecter les outils"]
      treatments := ["copper_spray"] }),
  ("tomato_early_blight",
    { fr := "Tomate — alternariose", wo := "Ñawu weñ (tomate)"
      pu := "Early blight", severity := "Modérée", crop := "Tomate"
      prevention := ["Rotation", "Aération"]
      treatments := ["fungicide_copper", "neem_oil"] }),
  ("tomato_late_blight",
    { fr := "Tomate — mildiou", wo := "Mildiou", pu := "Late blight"
      severity := "Élevée", crop := "Tomate"
      prevention := ["Arrosage au pied", "Limiter humidité"]
      treatments := ["fungicide_systemic"] }),
  ("tomato_leaf_mold",
    { fr := "Tomate — feutrage", wo := "Puur weex", pu := "Huɗo peewo"
      severity := "Modérée", crop := "Tomate"
      prevention := ["Ventilation", "Éclaircissage"]
      treatments := ["sulfur_spray"] }),
  ("tomato_septoria_leaf_spot",
    { fr := "Tomate — septoriose", wo := "Septoria", pu := "Septoria"
      severity := "Modérée", crop := "Tomate"
      prevention := ["Rotation", "Paillage"]
      treatments := ["copper_spray", "neem_oil"] }),
  ("tomato_spider_mites",
    { fr := "Tomate — araignées rouges", wo := "Xajj", pu := "Kooke"
      severity := "Modérée", crop := "Tomate"
      prevention := ["Éviter stress hydrique", "Surveiller revers feuilles"]
      treatments := ["neem_oil", "soap_solution"] }),
  ("tomato_target_spot",
    { fr := "Tomate — tache en cible", wo := "Tàkk bu dalal"
      pu := "Target spot", severity := "Modérée", crop := "Tomate"
      prevention := ["Aération", "Équilibre azote"]
      treatments := ["copper_spray"] }),
  ("tomato_mosaic_virus",
    { fr := "Tomate — virus de la mosaïque", wo := "Wirùs mosayik"
      pu := "Virus mosaïque", severity := "Élevée", crop := "Tomate"
      prevention := ["Semences saines", "Hygiène", "Contrôle vecteurs"]
      treatments := ["remove_infected", "insecticide_vectors"] }),
  ("tomato_yellow_leaf_curl_virus",
    { fr := "Tomate — TYLCV", wo := "TYLCV", pu := "TYLCV"
      severity := "Élevée", crop := "Tomate"
      prevention := ["Filets anti-insectes", "Contrôle aleurodes"]
      treatments := ["insecticide_vectors", "remove_infected"] })]

/-- The French record of one `TREATMENTS_DB` entry. -/
structure TreatmentFr where
  name : String
  description : String
  application : String
  organic : Bool
  deriving DecidableEq, Repr

/-- `TREATMENTS_DB` from `disease_detector.py` (each id maps to its `fr`
record), in source order. -/
def TREATMENTS_DB : List (String × TreatmentFr) := [
  ("fungicide_copper",
    { name := "Bouillie bordelaise", description := "Fongicide à base de cuivre"
      application := "Tous les 7–10 jours", organic := true }),
  ("copper_spray",
    { name := "Cuivre (hydroxyde/oxychlorure)"
      description := "Antibactérien / fongique"
      application := "Suivre l\x27étiquette", organic := true }),
  ("fungicide_systemic",
    { name := "Fongicide systémique", description := "Curatif homologué"
      application := "Suivre l\x27étiquette", organic := false }),
  ("neem_oil",
    { name := "Huile de Neem", description := "Insecticide/fongique bio"
      application := "Hebdomadaire, le soir", organic := true }),
  ("sulfur_spray",
    { name := "Soufre", description := "Oïdium / feutrage"
      application := "Pulvérisation foliaire", organic := true }),
  ("soap_solution",
    { name := "Savon noir dilué", description := "Acariens / pucerons"
      application := "Soir, rincer après 24h", organic := true }),
  ("remove_infected",
    { name := "Arrachage des plants atteints"
      description := "Limiter la propagation"
      application := "Évacuer hors de la parcelle", organic := true }),
  ("insecticide_vectors",
    { name := "Contrôle des vecteurs", description := "Aleurodes / pucerons"
      application := "Pièges + produit homologué", organic := false }),
  ("crop_rotation",
    { name := "Rotation des cultures"
      description := "Brise les cycles des pathogènes"
      application := "Tous les 2–3 saisons", organic := true })]

/-! ### General-purpose lemmas -/

/-- A string with a non-empty left part is non-empty. -/
theorem strAppend_ne_left (a b : String) (h : a ≠ "") : a ++ b ≠ "" := by
  intro hc
  apply h
  have hd : a.data ++ b.data = [] := congrArg String.data hc
  cases a with
  | mk da =>
    cases da with
    | nil => rfl
    | cons c cs => simp at hd

/-- Joining a list whose head is non-empty yields a non-empty string. -/
theorem pyJoin_cons_ne (sep a : String) (l : List String) (h : a ≠ "") :
    pyJoin sep (a :: l) ≠ "" := by
  cases l with
  | nil => simpa [pyJoin] using h
  | cons b t =>
    show a ++ sep ++ pyJoin sep (b :: t) ≠ ""
    exact strAppend_ne_left _ _ (strAppend_ne_left _ _ h)

/-- A successful `findSome?` result comes from some member of the list. -/
theorem mem_of_findSome?_some {α β : Type} {f : α → Option β} {l : List α}
    {b : β} (h : l.findSome? f = some b) : ∃ a ∈ l, f a = some b := by
  induction l with
  | nil => simp [List.findSome?] at h
  | cons x xs ih =>
    rw [List.findSome?_cons] at h
    cases hx : f x with
    | some v =>
      rw [hx] at h
      exact ⟨x, List.mem_cons_self x xs, hx.trans h⟩
    | none =>
      rw [hx] at h
      obtain ⟨a, ha, hfa⟩ := ih h
      exact ⟨a, List.mem_cons_of_mem x ha, hfa⟩

/-- Looking a key up after a key-preserving value rewrite is the rewrite of
the original lookup. -/
theorem lookup_map_keyfix {α : Type} (g : String → α → α)
    (l : List (String × α)) (k : String) :
    (l.map fun p => (p.1, g p.1 p.2)).lookup k = (l.lookup k).map (g k) := by
  induction l with
  | nil => rfl
  | cons p t ih =>
    simp only [List.map_cons, List.lookup]
    cases hk : k == p.1 with
    | false => simpa [hk] using ih
    | true =>
      have : k = p.1 := by simpa using hk
      simp [this]

/-- In a list with pairwise-distinct keys, membership of a pair determines
the lookup result. -/
theorem lookup_eq_of_mem_nodup {α : Type} {l : List (String × α)}
    {k : String} {v : α} (hn : (l.map Prod.fst).Nodup) (hm : (k, v) ∈ l) :
    l.lookup k = some v := by
  induction l with
  | nil => cases hm
  | cons p t ih =>
    rcases List.mem_cons.mp hm with h | h
    · cases h
      simp [List.lookup]
    · simp only [List.map_cons, List.nodup_cons] at hn
      have hk : ¬ (k == p.1) = true := by
        intro hb
        have : k = p.1 := by simpa using hb
        exact hn.1 (this ▸ List.mem_map_of_mem Prod.fst h)
      simp only [List.lookup, Bool.not_eq_true] at hk ⊢
      rw [hk]
      exact ih hn.2 h

/-- Filtering by a predicate on keys that holds at `k` does not change the
lookup at `k`. -/
theorem lookup_filter_keyPred {α : Type} {p : String → Bool}
    {l : List (String × α)} {k : String} (hk : p k = true) :
    (l.filter fun q => p q.1).lookup k = l.lookup k := by
  induction l with
  | nil => rfl
  | cons q t ih =>
    simp only [List.filter_cons]
    by_cases hq : p q.1 = true
    · simp only [hq, if_true, List.lookup]
      cases hkq : k == q.1 <;> simp [hkq, ih]
    · simp only [hq, if_false, Bool.false_eq_true]
      have hkq : (k == q.1) = false := by
        rw [beq_eq_false_iff_ne]
        intro hb
        exact hq (hb ▸ hk)
      simp only [List.lookup, hkq]
      exact ih

/-! ### Support lemmas about the resolver -/

/-- Every branch of `_general_reply` returns a non-empty literal. -/
theorem generalReply_ne (m : String) : generalReply m ≠ "" := by
  unfold generalReply
  repeat' split
  all_goals decide

/-- Every branch of `_format_disease_answer` returns a non-empty string. -/
theorem formatDiseaseAnswer_ne (key m : String) :
    formatDiseaseAnswer key m ≠ "" := by
  simp only [formatDiseaseAnswer]
  repeat' split
  all_goals first
    | (apply pyJoin_cons_ne
       repeat' apply strAppend_ne_left
       decide)
    | (repeat' apply strAppend_ne_left
       decide)

/-! ### The claims -/

/-- C4: `generate_response` is total (embedded as a total function) and
always produces non-empty response text, for every message, session,
language and extra context; on the empty message no keyword rule fires and
the result is intent `general` with the default unmatched-response text. -/
theorem c4_resolver_total_nonempty_default :
    (∀ dl msg sid lang ctx,
      (generateResponse dl msg sid lang ctx).response ≠ "") ∧
    (generateResponse "fr" "" "default" (some "fr") []).intent = "general" ∧
    (generateResponse "fr" "" "default" (some "fr") []).response =
      "Je n\x27ai pas trouvé exactement la maladie dans ton message 😅.\nTu peux écrire :\n- « traitement mildiou tomate »\n- « prévention tache bactérienne poivron »\n- « symptômes brûlure précoce pomme de terre »\n- « bonnes pratiques d\x27arrosage »" := by
  refine ⟨?_, rfl, rfl⟩
  intro dl msg sid lang ctx
  cases h : findDiseaseKey (normalizeMsg msg) with
  | some k => simpa [generateResponse, h] using
      formatDiseaseAnswer_ne k (normalizeMsg msg)
  | none => simpa [generateResponse, h] using
      generalReply_ne (normalizeMsg msg)

/-- C8: the message `"xyz123 nonsense"` matches no disease and no generic
topic, so the resolver returns the default unmatched response with intent
`general`; and the text-producing path is a deterministic function of the
message alone (any two calls agree, whatever the session, language, default
language or extra context). -/
theorem c8_default_response_deterministic :
    (generateResponse "fr" "xyz123 nonsense" "default" (some "fr") []).response =
      "Je n\x27ai pas trouvé exactement la maladie dans ton message 😅.\nTu peux écrire :\n- « traitement mildiou tomate »\n- « prévention tache bactérienne poivron »\n- « symptômes brûlure précoce pomme de terre »\n- « bonnes pratiques d\x27arrosage »" ∧
    (generateResponse "fr" "xyz123 nonsense" "default" (some "fr") []).intent =
      "general" ∧
    (∀ dl dl' sid sid' lang lang' ctx ctx',
      (generateResponse dl "xyz123 nonsense" sid lang ctx).response =
      (generateResponse dl' "xyz123 nonsense" sid' lang' ctx').response) :=
  ⟨rfl, rfl, fun _ _ _ _ _ _ _ _ => rfl⟩

/-- C1: the claim expects `"traitement mildiou tomate"` to resolve to the
`tomato_late_blight` entry, but the paired crop+condition match strips the
underscores out of the candidate token before testing it as a substring of
the underscored catalog keys, so it never matches anything; the token
fallback then returns the first catalog entry whose crop name `"tomate"`
occurs in the message, which is `tomato_bacterial_spot`.  The reply is
built from the bacterial-spot entry, not the late-blight one. -/
theorem c1_mildiou_tomate_resolves_to_bacterial_spot :
    findDiseaseKey (normalizeMsg "traitement mildiou tomate") =
      some "tomato_bacterial_spot" ∧
    findAttempt1 (normalizeMsg "traitement mildiou tomate") = none ∧
    (generateResponse "fr" "traitement mildiou tomate" "default"
      (some "fr") []).intent = "disease_info" ∧
    (generateResponse "fr" "traitement mildiou tomate" "default"
      (some "fr") []).response =
      "Traitement pour **Tache bactérienne de la tomate** :\n  • Traitement cuivre (hydroxyde ou oxichlorure)\n  • Supprimer feuilles atteintes pour limiter la source d\x27inoculum\n\nSévérité : **Modérée**" :=
  ⟨rfl, rfl, rfl, rfl⟩

/-- C2: the claim expects `map_prediction_to_catalog("", "Tomato_Late_blight")`
to return the catalog entry with id `tomato_late_blight`, but
`DATASET_DISEASES` has no such row at all; the fuzzy pass instead matches
the potato row, whose normalised English condition `"late_blight"` is a
substring of the normalised label, and returns `potato_late_blight`. -/
theorem c2_reconcile_late_blight_returns_potato_entry :
    (mapPredictionToCatalog "" "Tomato_Late_blight").map CatEntry.id =
      some "potato_late_blight" ∧
    DATASET_DISEASES.find? (fun e => e.id == "tomato_late_blight") = none :=
  ⟨rfl, rfl⟩

/-- C3: whenever the raw key is a catalog id, the reconciler returns that
entry through the exact-match fast path, whatever the raw label. -/
theorem c3_exact_match_fast_path (e : CatEntry) (lbl : String)
    (he : e ∈ DATASET_DISEASES) :
    mapPredictionToCatalog e.id lbl = some e := by
  fin_cases he <;> rfl

/-- C3 witness: the fast path at a concrete id and an arbitrary label. -/
theorem c3_exact_match_fast_path_witness :
    mapPredictionToCatalog "pepper_bacterial_spot" "garbage raw label" =
      some
        { id := "pepper_bacterial_spot", plant_en := "Pepper (bell)"
          plant_fr := "Poivron", disease_en := "Bacterial spot"
          disease_fr := "Tache bactérienne", severity := "Modérée"
          season := "Toute saison" } :=
  c3_exact_match_fast_path
    { id := "pepper_bacterial_spot", plant_en := "Pepper (bell)"
      plant_fr := "Poivron", disease_en := "Bacterial spot"
      disease_fr := "Tache bactérienne", severity := "Modérée"
      season := "Toute saison" }
    "garbage raw label" (by decide)

/-- C6: every treatment id referenced from the detector's `DISEASE_INFO`
entries is a key of `TREATMENTS_DB` (no dangling references). -/
theorem c6_treatment_refs_resolve (k : String) (e : DdEntry)
    (hmem : (k, e) ∈ DD_DISEASE_INFO) (t : String) (ht : t ∈ e.treatments) :
    (TREATMENTS_DB.lookup t).isSome = true := by
  have hall : (DD_DISEASE_INFO.all fun p =>
      p.2.treatments.all fun s => (TREATMENTS_DB.lookup s).isSome) = true := by
    rfl
  exact List.all_eq_true.mp (List.all_eq_true.mp hall (k, e) hmem) t ht

/-- C6 witness: a concrete reference from the pepper bacterial-spot entry. -/
theorem c6_treatment_refs_resolve_witness :
    (TREATMENTS_DB.lookup "copper_spray").isSome = true :=
  c6_treatment_refs_resolve "pepper_bacterial_spot"
    { fr := "Piment — tache bactérienne", wo := "Pimó — tàkk bakteriya"
      pu := "Piment tache bakteriya", severity := "Modérée", crop := "Piment"
      prevention := ["Semences saines", "Éviter l\x27aspersion", "Désinfecter les outils"]
      treatments := ["copper_spray", "crop_rotation"] }
    (by decide) "copper_spray" (by decide)

/-! ### Spec-side response shapes (for the refinement claim C5)

These four definitions transcribe §4.3 step 3 / §4.4 of the specification:
the treatment / prevention / symptom templates (title line plus itemized
list, with a substitute sentence when the list is empty) and the default
fact sheet combining severity, symptoms when present, up to two treatments
and up to two prevention tips. -/

/-- Spec treatment template: title line, one bullet per treatment, severity
footer; substitute sentence for entries without treatments. -/
def specTreatmentResponse (e : CbEntry) : String :=
  if e.treatments.isEmpty then
    "Pour **" ++ e.name ++
      "**, pas de traitement spécifique enregistré.\nSupprime les parties atteintes et améliore l\x27aération."
  else
    pyJoin "\n" (("Traitement pour **" ++ e.name ++ "** :") ::
      e.treatments.map (fun t => "  • " ++ t) ++
      ["\nSévérité : **" ++ e.severity ++ "**"])

/-- Spec prevention template: title line plus one bullet per tip;
substitute sentence for entries without tips. -/
def specPreventionResponse (e : CbEntry) : String :=
  if e.prevention.isEmpty then
    "Prévention générale pour **" ++ e.name ++
      "** :\nRotation, arrosage au pied, enlever les feuilles malades."
  else
    pyJoin "\n" (("Prévention pour **" ++ e.name ++ "** :") ::
      e.prevention.map (fun p => "  • " ++ p))

/-- Spec symptom template: symptom description under a title, with a
generic sentence when the entry records no symptoms. -/
def specSymptomResponse (e : CbEntry) : String :=
  if e.symptoms = "" then
    "Symptômes de **" ++ e.name ++
      "** : taches sur feuilles et affaiblissement de la plante."
  else
    "Symptômes de **" ++ e.name ++ "** 🔍 :\n" ++ e.symptoms

/-- Spec fact sheet: severity, the symptoms when present, at most the first
two treatments and at most the first two prevention tips. -/
def specFactSheet (e : CbEntry) : String :=
  pyJoin "\n" (("📋 Maladie : **" ++ e.name ++ "**") ::
    ("Sévérité : " ++ e.severity) ::
    ((if e.symptoms ≠ "" then ["Symptômes : " ++ e.symptoms] else []) ++
     (if ¬ e.treatments.isEmpty then
        ["Traitements : " ++ pyJoin "; " (e.treatments.take 2)] else []) ++
     (if ¬ e.prevention.isEmpty then
        ["Prévention : " ++ pyJoin "; " (e.prevention.take 2)] else [])))

/-- Secondary treatment keywords of `_format_disease_answer`. -/
def hasTreatmentKw (m : String) : Bool :=
  anyKw ["traitement", "soigner", "traiter"] m

/-- Secondary prevention keywords of `_format_disease_answer`. -/
def hasPreventionKw (m : String) : Bool :=
  anyKw ["prevention", "prévention", "eviter", "éviter"] m

/-- Secondary symptom keywords of `_format_disease_answer`. -/
def hasSymptomKw (m : String) : Bool :=
  anyKw ["symptome", "symptômes", "reconnaitre", "reconnaître"] m

/-- C5: for every catalog key and every message, the disease answer is
selected by secondary-keyword presence with priority treatment >
prevention > symptom, with the spec's fact sheet when none matches. -/
theorem c5_template_priority_and_fact_sheet (key msg : String) (e : CbEntry)
    (h : DISEASE_INFO.lookup key = some e) :
    formatDiseaseAnswer key msg =
      if hasTreatmentKw msg then specTreatmentResponse e
      else if hasPreventionKw msg then specPreventionResponse e
      else if hasSymptomKw msg then specSymptomResponse e
      else specFactSheet e := by
  have he : entryForKey key = e := by
    unfold entryForKey
    rw [h]
  simp only [formatDiseaseAnswer, he, hasTreatmentKw, hasPreventionKw,
    hasSymptomKw, specTreatmentResponse, specPreventionResponse,
    specSymptomResponse, specFactSheet]

/-- The `tomato_late_blight` entry of the chatbot catalog, for the C5
witness. -/
def lateBlightEntry : CbEntry :=
  { name := "Tomate — mildiou"
    crop := "Tomate"
    severity := "Élevée"
    treatments := [
      "Fongicide systémique (suivre l\x27étiquette)",
      "Couper les parties très atteintes"]
    prevention := [
      "Arroser au pied",
      "Espacer les plants",
      "Éviter l\x27humidité prolongée"]
    symptoms := "Taches brun-gris qui s\x27élargissent vite, parfois duvet blanc au revers." }

/-- C5 witness: the template selection at a concrete key and message. -/
theorem c5_template_priority_and_fact_sheet_witness :
    formatDiseaseAnswer "tomato_late_blight" "traitement" =
      if hasTreatmentKw "traitement" then specTreatmentResponse lateBlightEntry
      else if hasPreventionKw "traitement" then
        specPreventionResponse lateBlightEntry
      else if hasSymptomKw "traitement" then
        specSymptomResponse lateBlightEntry
      else specFactSheet lateBlightEntry :=
  c5_template_priority_and_fact_sheet "tomato_late_blight" "traitement"
    lateBlightEntry rfl

/-- C7: crop filtering is alias-invariant — `"tomato"` and `"tomate"` give
the same sequence; any two (non-empty) crop names normalising into the same
alias group give the same sequence; an unknown crop name gives the empty
sequence rather than an error. -/
theorem c7_crop_filter_alias_equivalence :
    getCommonDiseases (some "tomato") = getCommonDiseases (some "tomate") ∧
    (∀ vals a b, vals ∈ cropAliases.map Prod.snd → a ≠ "" → b ≠ "" →
      (vals.map pyLowerStr).contains (pyLowerStr (pyStrip a)) = true →
      (vals.map pyLowerStr).contains (pyLowerStr (pyStrip b)) = true →
      getCommonDiseases (some a) = getCommonDiseases (some b)) ∧
    (∀ c, c ≠ "" →
      (∀ vals ∈ cropAliases.map Prod.snd,
        (vals.map pyLowerStr).contains (pyLowerStr (pyStrip c)) = false) →
      getCommonDiseases (some c) = []) := by
  refine ⟨rfl, ?_, ?_⟩
  · intro vals a b hv ha hb hca hcb
    have gca : getCommonDiseases (some a) =
        filterByNormCrop (pyLowerStr (pyStrip a)) := by
      simp [getCommonDiseases, ha]
    have gcb : getCommonDiseases (some b) =
        filterByNormCrop (pyLowerStr (pyStrip b)) := by
      simp [getCommonDiseases, hb]
    rw [gca, gcb]
    fin_cases hv
    · rw [show (["tomate", "tomato"] : List String).map pyLowerStr =
          ["tomate", "tomato"] from rfl] at hca hcb
      have ha' := List.elem_iff.mp hca
      have hb' := List.elem_iff.mp hcb
      simp only [List.mem_cons, List.not_mem_nil, or_false] at ha' hb'
      rcases ha' with h1 | h1 <;> rcases hb' with h2 | h2 <;>
        rw [h1, h2] <;> rfl
    · rw [show (["pomme de terre", "potato"] : List String).map pyLowerStr =
          ["pomme de terre", "potato"] from rfl] at hca hcb
      have ha' := List.elem_iff.mp hca
      have hb' := List.elem_iff.mp hcb
      simp only [List.mem_cons, List.not_mem_nil, or_false] at ha' hb'
      rcases ha' with h1 | h1 <;> rcases hb' with h2 | h2 <;>
        rw [h1, h2] <;> rfl
    · rw [show (["poivron", "pepper", "bell pepper", "pepper (bell)"] :
            List String).map pyLowerStr =
          ["poivron", "pepper", "bell pepper", "pepper (bell)"] from rfl]
        at hca hcb
      have ha' := List.elem_iff.mp hca
      have hb' := List.elem_iff.mp hcb
      simp only [List.mem_cons, List.not_mem_nil, or_false] at ha' hb'
      rcases ha' with h1 | h1 | h1 | h1 <;> rcases hb' with h2 | h2 | h2 | h2 <;>
        rw [h1, h2] <;> rfl
  · intro c hc hnone
    have gcc : getCommonDiseases (some c) =
        filterByNormCrop (pyLowerStr (pyStrip c)) := by
      simp [getCommonDiseases, hc]
    rw [gcc]
    unfold filterByNormCrop
    have hfs : cropAliases.findSome? (fun g =>
        if (g.2.map pyLowerStr).contains (pyLowerStr (pyStrip c)) then
          some g.2
        else none) = none := by
      rw [List.findSome?_eq_none_iff]
      intro g hg
      have hfalse := hnone g.2 (List.mem_map_of_mem Prod.snd hg)
      exact if_neg (fun hcond => by
        rw [hfalse] at hcond
        exact Bool.false_ne_true hcond)
    rw [hfs]

/-- C7 witness: alias equivalence applied at `"Tomato"` / `"tomate"`. -/
theorem c7_crop_filter_alias_equivalence_witness :
    getCommonDiseases (some "Tomato") = getCommonDiseases (some "tomate") :=
  c7_crop_filter_alias_equivalence.2.1 ["tomate", "tomato"] "Tomato" "tomate"
    (by decide) (by decide) (by decide) (by decide) (by decide)

/-- Looking up a key of `extra` in the merged dict returns its `extra`
value (Python `{**base, **extra}` semantics). -/
theorem lookup_pyDictUpdate {α : Type} (base extra : List (String × α))
    {k : String} {v : α} (hn : (extra.map Prod.fst).Nodup)
    (hm : (k, v) ∈ extra) :
    (pyDictUpdate base extra).lookup k = some v := by
  have he : extra.lookup k = some v := lookup_eq_of_mem_nodup hn hm
  unfold pyDictUpdate
  rw [List.lookup_append, lookup_map_keyfix (overrideVal extra)]
  cases hb : base.lookup k with
  | some w =>
    simp [overrideVal, he]
  | none =>
    simp only [Option.map_none', Option.none_or]
    rw [lookup_filter_keyPred (p := fun key => (base.lookup key).isNone)
      (by simp [hb])]
    exact he

/-- C9: every key-value pair of the caller-supplied extra context appears
unchanged in the context map of the response, for every message, language,
session and default language. -/
theorem c9_extra_context_passthrough (dl msg sid : String)
    (lang : Option String) (extra : List (String × CtxVal)) (k : String)
    (v : CtxVal) (hn : (extra.map Prod.fst).Nodup) (hm : (k, v) ∈ extra) :
    ((generateResponse dl msg sid lang extra).context).lookup k = some v := by
  have hctx : (generateResponse dl msg sid lang extra).context =
      pyDictUpdate
        [("session_id", CtxVal.str sid),
         ("topic", CtxVal.str "plant_disease_assistant")] extra := rfl
  rw [hctx]
  exact lookup_pyDictUpdate _ _ hn hm

/-- C9 witness: a concrete extra-context pair rides through. -/
theorem c9_extra_context_passthrough_witness :
    ((generateResponse "fr" "bonjour" "s1" (some "fr")
      [("farm", CtxVal.str "nord")]).context).lookup "farm" =
      some (CtxVal.str "nord") :=
  c9_extra_context_passthrough "fr" "bonjour" "s1" (some "fr")
    [("farm", CtxVal.str "nord")] "farm" (CtxVal.str "nord")
    (by decide) (by decide)

/-- C10: any key produced by `_find_disease_key` is a key of the
`DISEASE_INFO` catalog, so the formatter's missing-entry fallback is
unreachable for resolver-produced keys. -/
theorem c10_resolved_keys_in_catalog (msg k : String)
    (h : findDiseaseKey msg = some k) :
    (DISEASE_INFO.lookup k).isSome = true := by
  have hidx : ∀ p ∈ TEXT_INDEX, (DISEASE_INFO.lookup p.2).isSome = true :=
    List.all_eq_true.mp (by rfl)
  have hcat : ∀ p ∈ DISEASE_INFO, (DISEASE_INFO.lookup p.1).isSome = true :=
    List.all_eq_true.mp (by rfl)
  unfold findDiseaseKey at h
  cases h1 : findAttempt1 msg with
  | some k1 =>
    simp only [h1] at h
    have hk1 : k1 = k := by injection h
    unfold findAttempt1 at h1
    obtain ⟨cp, _, hcp⟩ := mem_of_findSome?_some h1
    split at hcp
    case isFalse => cases hcp
    obtain ⟨dp, _, hdp⟩ := mem_of_findSome?_some hcp
    split at hdp
    case isFalse => cases hdp
    obtain ⟨ck, _, hck⟩ := mem_of_findSome?_some hdp
    obtain ⟨dk, _, hdk⟩ := mem_of_findSome?_some hck
    cases hf : DISEASE_INFO.find? (fun entry =>
        strIn ck entry.1 && strIn (dropUnderscores dk) entry.1) with
    | none => rw [hf] at hdk; cases hdk
    | some pr =>
      rw [hf] at hdk
      have hpk : pr.1 = k1 := by simpa using hdk
      have hmem : pr ∈ DISEASE_INFO := List.mem_of_find?_eq_some hf
      have := hcat pr hmem
      rw [hpk, hk1] at this
      exact this
  | none =>
    simp only [h1] at h
    cases h2 : findAttempt2 msg with
    | some k2 =>
      simp only [h2] at h
      have hk2 : k2 = k := by injection h
      unfold findAttempt2 at h2
      obtain ⟨tk, htk, hf⟩ := mem_of_findSome?_some h2
      split at hf
      · have htk2 : tk.2 = k2 := by injection hf
        have := hidx tk htk
        rw [htk2, hk2] at this
        exact this
      · cases hf
    | none =>
      simp only [h2] at h
      unfold findAttempt3 at h
      obtain ⟨tk, htk, hf⟩ := mem_of_findSome?_some h
      split at hf
      · have htk2 : tk.2 = k := by injection hf
        have := hidx tk htk
        rw [htk2] at this
        exact this
      · cases hf

/-- C10 witness: the key resolved for a concrete message is in the
catalog. -/
theorem c10_resolved_keys_in_catalog_witness :
    (DISEASE_INFO.lookup "tomato_bacterial_spot").isSome = true :=
  c10_resolved_keys_in_catalog "traitement mildiou tomate"
    "tomato_bacterial_spot" rfl

end AgriDetect
